import Mathlib

/-!
Verification of `tools/package.py`: a script that derives a submission name
from the current working directory path, archives the `*.dfy` files of the
current directory into `<name>.tgz` via an external `tar` process, and prints
an upload instruction.  The script is embedded shallowly below: path and file
listing become explicit inputs, the spawned `tar` process is represented by
the argument vector handed to it together with its (ignored) exit status.
-/

namespace Package

/-- Boolean test that the character list `n` occurs at the start of `h`. -/
def startsList : List Char → List Char → Bool
  | [], _ => true
  | _ :: _, [] => false
  | a :: as, b :: bs => a == b && startsList as bs

/-- Boolean test that the character list `n` occurs contiguously inside `h`;
this is the semantics of Python's `n in h` on strings. -/
def containsList (n : List Char) : List Char → Bool
  | [] => startsList n []
  | b :: bs => startsList n (b :: bs) || containsList n bs

/-- Python's substring membership `needle in hay` for strings. -/
def pyIn (needle hay : String) : Bool :=
  containsList needle.toList hay.toList

/-- Python's `str.split(sep)` on character lists for a single-character
separator: split at every occurrence of `sep`, keeping empty segments. -/
def splitChars (sep : Char) : List Char → List (List Char)
  | [] => [[]]
  | c :: cs =>
    if c == sep then [] :: splitChars sep cs
    else
      match splitChars sep cs with
      | [] => [[c]]
      | r :: rs => (c :: r) :: rs

/-- Python's `str.split(sep)` for a single-character separator. -/
def pySplit (sep : Char) (s : String) : List String :=
  (splitChars sep s.toList).map fun l => String.mk l

/-- `os.sep` on the POSIX platforms the course targets. -/
def osSep : Char := '/'

/-- The comprehension filter of lines 14-18 of `package.py`:
`"chapter" in segment or "project" in segment`. -/
def segMatches (segment : String) : Bool :=
  pyIn "chapter" segment || pyIn "project" segment

/-- Lines 13-18 of `package.py`: the last element of
`[segment for segment in path.split(os.sep) if "chapter" in segment or
"project" in segment]`; `none` models the `IndexError` taken when the
comprehension is empty.  `path` stands for `os.path.normpath(os.getcwd())`. -/
def chapter (path : String) : Option String :=
  ((pySplit osSep path).filter segMatches).getLast?

/-- Line 22 of `package.py`: `package_name = f"{chapter}.tgz"`. -/
def package_name (chapter : String) : String := chapter ++ ".tgz"

/-- Boolean test that the character list `suffix` occurs at the end of `l`. -/
def endsList (suffix l : List Char) : Bool := startsList suffix.reverse l.reverse

/-- Semantics of `glob.glob("*.dfy")` applied to one directory entry name:
Python's glob never matches names beginning with a dot when the pattern does
not itself begin with a dot, and `*` matches any (possibly empty) run of
remaining characters, so a name matches exactly when it does not start with
`'.'` and ends with `".dfy"`. -/
def dfyGlobMatch (f : String) : Bool :=
  match f.toList with
  | [] => false
  | c :: cs => c != '.' && endsList ".dfy".toList (c :: cs)

/-- Line 23 of `package.py`: `glob.glob("*.dfy")`, with the directory listing
`files` made an explicit input. -/
def glob_dfy (files : List String) : List String := files.filter dfyGlobMatch

/-- The diagnostic of line 20 of `package.py`. -/
def errorMessage : String := "Cannot determine chapter name from current path.\n"

/-- The success message of line 25 of `package.py`. -/
def uploadMessage (pkg : String) : String :=
  "Please upload " ++ pkg ++ " to the submission site.\n"

/-- Observable outcome of one run of the script: the lines written to the two
output streams, the process exit status, and the argument vector handed to
`subprocess.call` (`none` when no subprocess is spawned). -/
structure RunResult where
  stdout : List String
  stderr : List String
  exitCode : Int
  tarCmd : Option (List String)
  deriving DecidableEq, Repr

/-- The whole script, lines 12-25 of `package.py`.  `path` is
`os.path.normpath(os.getcwd())`, `files` the current directory listing, and
`tarExit` the exit status of the spawned `tar` process (which the script
receives from `subprocess.call` and never inspects). -/
def run (path : String) (files : List String) (_tarExit : Int) : RunResult :=
  match chapter path with
  | none => ⟨[], [errorMessage], -1, none⟩
  | some ch =>
    ⟨[uploadMessage (package_name ch)], [], 0,
      some (["tar", "-czf", package_name ch] ++ glob_dfy files)⟩

/-- The archive filename handed to `tar -czf`, when a subprocess was spawned. -/
def archiveName (r : RunResult) : Option String := (r.tarCmd.getD [])[2]?

/-- The member files handed to `tar`, i.e. the argument vector past
`tar -czf <name>`. -/
def archiveMembers (r : RunResult) : List String := (r.tarCmd.getD []).drop 3

/-- The spec's selection rule, stated the way the spec words it: scan the
segments of the normalized path from the end and take the first one containing
`"chapter"` or `"project"` as a substring. -/
def specDerivedName (path : String) : Option String :=
  (pySplit osSep path).reverse.find? segMatches

/-- Taking the last element of the sublist of elements satisfying `p` is the
same as scanning the list from the end for the first element satisfying `p`. -/
lemma filter_getLast_eq_reverse_find (p : α → Bool) (l : List α) :
    (l.filter p).getLast? = l.reverse.find? p := by
  induction l using List.reverseRecOn with
  | nil => rfl
  | append_singleton xs a ih =>
    rw [List.filter_append, List.reverse_append]
    by_cases h : p a
    · simp [h, List.getLast?_append]
    · simp only [List.filter_cons, h, if_neg, Bool.false_eq_true, reduceIte,
        List.filter_nil, List.append_nil, ih, List.reverse_cons,
        List.reverse_nil, List.nil_append, List.find?_cons]
      simp [h]

/-- The code's derived name agrees with the spec's back-to-front scan. -/
lemma chapter_eq_specDerivedName (path : String) :
    chapter path = specDerivedName path :=
  filter_getLast_eq_reverse_find segMatches (pySplit osSep path)

example : chapter "/home/user/course/chapter3" = some "chapter3" := by decide

example : run "/home/user/course/chapter3" ["a.dfy", "b.dfy", "notes.txt"] 0 =
    ⟨["Please upload chapter3.tgz to the submission site.\n"], [], 0,
      some ["tar", "-czf", "chapter3.tgz", "a.dfy", "b.dfy"]⟩ := by decide

example : run "/home/user/course/lab3" ["a.dfy"] 0 =
    ⟨[], ["Cannot determine chapter name from current path.\n"], -1, none⟩ := by
  decide

/-- C1: for every working-directory path with at least one segment containing
`"chapter"` or `"project"` as a substring, the derived submission name equals
the last such segment of the normalized path split by the platform separator
(here stated as the spec's back-to-front scan), and the archive filename
handed to `tar` is that segment followed by `".tgz"`. -/
theorem claim_C1_derived_name (path : String) (files : List String)
    (tarExit : Int) (seg : String)
    (h : specDerivedName path = some seg) :
    chapter path = some seg ∧
      archiveName (run path files tarExit) = some (seg ++ ".tgz") := by
  have hc : chapter path = some seg := (chapter_eq_specDerivedName path).trans h
  refine ⟨hc, ?_⟩
  simp [run, hc, archiveName, package_name]

/-- Witness for C1 at the spec's own scenario `/home/user/course/chapter3`. -/
theorem claim_C1_derived_name_witness :
    specDerivedName "/home/user/course/chapter3" = some "chapter3" ∧
      (chapter "/home/user/course/chapter3" = some "chapter3" ∧
        archiveName (run "/home/user/course/chapter3" ["a.dfy", "b.dfy"] 0) =
          some ("chapter3" ++ ".tgz")) :=
  ⟨by decide,
    claim_C1_derived_name "/home/user/course/chapter3" ["a.dfy", "b.dfy"] 0
      "chapter3" (by decide)⟩

/-- C2: for every working-directory path none of whose segments contains
`"chapter"` or `"project"`, the script writes the fixed diagnostic to the
error stream, writes nothing to standard output, exits with the non-zero
status `-1`, and spawns no archiving subprocess. -/
theorem claim_C2_failure (path : String) (files : List String) (tarExit : Int)
    (h : ∀ seg ∈ pySplit osSep path, segMatches seg = false) :
    (run path files tarExit).stderr =
        ["Cannot determine chapter name from current path.\n"] ∧
      (run path files tarExit).exitCode = -1 ∧
      (run path files tarExit).exitCode ≠ 0 ∧
      (run path files tarExit).stdout = [] ∧
      (run path files tarExit).tarCmd = none := by
  have hfil : (pySplit osSep path).filter segMatches = [] := by
    rw [List.filter_eq_nil_iff]
    intro a ha
    simp [h a ha]
  have hc : chapter path = none := by
    unfold chapter
    rw [hfil]
    rfl
  simp [run, hc, errorMessage]

/-- Witness for C2 at the spec's own scenario `/home/user/course/lab3`. -/
theorem claim_C2_failure_witness :
    (∀ seg ∈ pySplit osSep "/home/user/course/lab3", segMatches seg = false) ∧
      ((run "/home/user/course/lab3" ["a.dfy"] 7).stderr =
          ["Cannot determine chapter name from current path.\n"] ∧
        (run "/home/user/course/lab3" ["a.dfy"] 7).exitCode = -1 ∧
        (run "/home/user/course/lab3" ["a.dfy"] 7).exitCode ≠ 0 ∧
        (run "/home/user/course/lab3" ["a.dfy"] 7).stdout = [] ∧
        (run "/home/user/course/lab3" ["a.dfy"] 7).tarCmd = none) :=
  ⟨by decide, claim_C2_failure "/home/user/course/lab3" ["a.dfy"] 7 (by decide)⟩

/-- C3: whenever a name is derived, the member list handed to `tar` is exactly
`glob.glob("*.dfy")`, and as a set it is exactly the files of the current
directory matching `*.dfy`: membership in the member list is equivalent to
being a directory entry that matches the pattern. -/
theorem claim_C3_members (path : String) (files : List String) (tarExit : Int)
    (ch : String) (h : chapter path = some ch) :
    archiveMembers (run path files tarExit) = glob_dfy files ∧
      ∀ f, f ∈ archiveMembers (run path files tarExit) ↔
        f ∈ files ∧ dfyGlobMatch f = true := by
  have hm : archiveMembers (run path files tarExit) = glob_dfy files := by
    simp [run, h, archiveMembers]
  refine ⟨hm, fun f => ?_⟩
  rw [hm]
  simp [glob_dfy, List.mem_filter]

/-- Witness for C3 with a mixed directory listing. -/
theorem claim_C3_members_witness :
    chapter "/home/user/course/chapter3" = some "chapter3" ∧
      (archiveMembers
            (run "/home/user/course/chapter3" ["a.dfy", "notes.txt", "b.dfy"] 0) =
          glob_dfy ["a.dfy", "notes.txt", "b.dfy"] ∧
        ∀ f, f ∈ archiveMembers
              (run "/home/user/course/chapter3" ["a.dfy", "notes.txt", "b.dfy"] 0) ↔
            f ∈ ["a.dfy", "notes.txt", "b.dfy"] ∧ dfyGlobMatch f = true) :=
  ⟨by decide,
    claim_C3_members "/home/user/course/chapter3" ["a.dfy", "notes.txt", "b.dfy"]
      0 "chapter3" (by decide)⟩

/-- C4: if no directory entry matches `*.dfy` but a name was derived, the
archiving subprocess is still spawned, with an empty member list, so the
archive is still created containing zero members. -/
theorem claim_C4_empty (path : String) (files : List String) (tarExit : Int)
    (ch : String) (h : chapter path = some ch) (hz : glob_dfy files = []) :
    (run path files tarExit).tarCmd = some ["tar", "-czf", ch ++ ".tgz"] ∧
      archiveMembers (run path files tarExit) = [] := by
  simp [run, h, hz, archiveMembers, package_name]

/-- Witness for C4 in a directory with no `.dfy` files. -/
theorem claim_C4_empty_witness :
    chapter "/home/user/course/chapter3" = some "chapter3" ∧
      glob_dfy ["notes.txt"] = [] ∧
      ((run "/home/user/course/chapter3" ["notes.txt"] 0).tarCmd =
          some ["tar", "-czf", "chapter3" ++ ".tgz"] ∧
        archiveMembers (run "/home/user/course/chapter3" ["notes.txt"] 0) = []) :=
  ⟨by decide, by decide,
    claim_C4_empty "/home/user/course/chapter3" ["notes.txt"] 0 "chapter3"
      (by decide) (by decide)⟩

/-- C5: whenever a name is derived, standard output is exactly one line,
`Please upload <name>.tgz to the submission site.`. -/
theorem claim_C5_stdout (path : String) (files : List String) (tarExit : Int)
    (ch : String) (h : chapter path = some ch) :
    (run path files tarExit).stdout =
      ["Please upload " ++ (ch ++ ".tgz") ++ " to the submission site.\n"] := by
  simp [run, h, uploadMessage, package_name]

/-- Witness for C5. -/
theorem claim_C5_stdout_witness :
    chapter "/home/user/course/chapter3" = some "chapter3" ∧
      (run "/home/user/course/chapter3" ["a.dfy"] 0).stdout =
        ["Please upload " ++ ("chapter3" ++ ".tgz") ++
          " to the submission site.\n"] :=
  ⟨by decide,
    claim_C5_stdout "/home/user/course/chapter3" ["a.dfy"] 0 "chapter3"
      (by decide)⟩

/-- C6: whenever a name is derived, the script exits with status 0 and prints
the success message no matter what the spawned `tar` process returned: the
run's observable outcome does not depend on the `tar` exit status at all. -/
theorem claim_C6_ignores_tar (path : String) (files : List String)
    (tarExit tarExitA tarExitB : Int) (ch : String)
    (h : chapter path = some ch) :
    (run path files tarExit).exitCode = 0 ∧
      (run path files tarExit).stdout = [uploadMessage (ch ++ ".tgz")] ∧
      run path files tarExitA = run path files tarExitB :=
  ⟨by simp [run, h], by simp [run, h, package_name], rfl⟩

/-- Witness for C6 at two distinct `tar` exit statuses (0 and a failure 2). -/
theorem claim_C6_ignores_tar_witness :
    chapter "/home/user/course/chapter3" = some "chapter3" ∧
      ((run "/home/user/course/chapter3" ["a.dfy"] 2).exitCode = 0 ∧
        (run "/home/user/course/chapter3" ["a.dfy"] 2).stdout =
          [uploadMessage ("chapter3" ++ ".tgz")] ∧
        run "/home/user/course/chapter3" ["a.dfy"] 0 =
          run "/home/user/course/chapter3" ["a.dfy"] 2) :=
  ⟨by decide,
    claim_C6_ignores_tar "/home/user/course/chapter3" ["a.dfy"] 2 0 2 "chapter3"
      (by decide)⟩

/-- C7: two runs over the same path and the same directory listing (possibly
with different `tar` exit statuses) derive the same archive name and the same
member list, hence the same member set. -/
theorem claim_C7_idempotent (path : String) (files : List String)
    (tarExitA tarExitB : Int) :
    archiveName (run path files tarExitA) =
        archiveName (run path files tarExitB) ∧
      archiveMembers (run path files tarExitA) =
        archiveMembers (run path files tarExitB) ∧
      ∀ f, f ∈ archiveMembers (run path files tarExitA) ↔
        f ∈ archiveMembers (run path files tarExitB) :=
  ⟨rfl, rfl, fun _ => Iff.rfl⟩

/-- C8: whenever the script proceeds past name derivation, the derived name
satisfies the substring condition and is therefore non-empty. -/
theorem claim_C8_nonempty (path : String) (ch : String)
    (h : chapter path = some ch) :
    segMatches ch = true ∧ ch ≠ "" := by
  have hspec : specDerivedName path = some ch :=
    (chapter_eq_specDerivedName path).symm.trans h
  have hm : segMatches ch = true := List.find?_some hspec
  refine ⟨hm, fun he => ?_⟩
  rw [he] at hm
  exact absurd hm (by decide)

/-- Witness for C8. -/
theorem claim_C8_nonempty_witness :
    chapter "/home/user/course/project2" = some "project2" ∧
      (segMatches "project2" = true ∧ "project2" ≠ "") :=
  ⟨by decide, claim_C8_nonempty "/home/user/course/project2" "project2" (by decide)⟩

/-- C9: the substring match is case-sensitive: on `/home/user/Chapter3` no
segment matches, so the script takes the failure path, although the
lower-cased segment `chapter3` would match. -/
theorem claim_C9_case_sensitive :
    segMatches "Chapter3" = false ∧
      chapter "/home/user/Chapter3" = none ∧
      run "/home/user/Chapter3" ["a.dfy"] 0 =
        ⟨[], ["Cannot determine chapter name from current path.\n"], -1, none⟩ ∧
      segMatches "chapter3" = true := by
  decide

/-- C10: a dot-file ending in `.dfy` is excluded from the member set: its name
ends in `".dfy"`, yet glob rejects it, so it never reaches the `tar` command
line. -/
theorem claim_C10_hidden_excluded :
    endsList (".dfy".toList) (".hidden.dfy".toList) = true ∧
      dfyGlobMatch ".hidden.dfy" = false ∧
      glob_dfy ["main.dfy", ".hidden.dfy"] = ["main.dfy"] ∧
      ".hidden.dfy" ∉ glob_dfy ["main.dfy", ".hidden.dfy"] ∧
      archiveMembers
          (run "/home/user/course/chapter3" ["main.dfy", ".hidden.dfy"] 0) =
        ["main.dfy"] := by
  decide

end Package
